import Mathlib

/-!
Shallow embedding of the FreesoundDownloader C++ library
(`src/freesound_downloader.cpp`, `include/freesound_downloader.h`).

The network is modelled as an explicit `World` function mapping an outgoing
HTTP request to either a transport-level exception (`Except.error`) or an
`HttpResponse`.  The local filesystem is a record of file contents together
with a writability predicate (whether `std::ofstream` can open a path).
Each method of the C++ `Downloader` class becomes a Lean function that
returns the post-state of the object paired with its result; a C++ method
that lets an exception escape is modelled with an `Except` result, while a
method that catches everything returns a plain value.
-/

namespace FreesoundDownloader

/-- Base URL for Freesound API endpoints (`Downloader::BASE_URL`). -/
def BASE_URL : String := "https://freesound.org/apiv2/"

/-- An HTTP response as seen through cpr: a status code and a body. -/
structure HttpResponse where
  status_code : Int
  text : String
deriving Repr, DecidableEq

/-- An outgoing HTTP request: url, query parameters, headers and an
optional timeout in milliseconds. -/
structure HttpRequest where
  url : String
  params : List (String × String)
  header : List (String × String)
  timeout : Option Nat
deriving Repr, DecidableEq

/-- The network: maps a request to a transport-level exception or a
response. -/
def World : Type := HttpRequest → Except String HttpResponse

/-- The local filesystem: contents of each path, and whether an
`std::ofstream` opened on a path succeeds. -/
structure FileSystem where
  files : String → Option String
  writable : String → Bool

/-- Writing a file replaces the contents at `path` and leaves every other
path unchanged. -/
def FileSystem.writeFile (fs : FileSystem) (path : String) (contents : String) :
    FileSystem :=
  { fs with files := fun p => if p = path then some contents else fs.files p }

/-- The `Downloader` class: its only state is the stored API key. -/
structure Downloader where
  m_api_key : String
deriving Repr, DecidableEq

/-- The constructor `Downloader::Downloader(const std::string&)`.
`env_key` is the state of the `FREESOUND_API_KEY` environment variable:
`none` when unset, `some s` when set to `s` (possibly the empty string,
in which case `getenv` returns a non-null pointer to an empty string).
The member is initialised to `api_key`; if empty it is replaced by the
environment value when the variable is set; if still empty the
constructor throws `std::invalid_argument`. -/
def Downloader.construct (api_key : String) (env_key : Option String) :
    Except String Downloader :=
  let key0 := api_key
  let key1 :=
    if key0 = "" then
      match env_key with
      | some e => e
      | none => key0
    else key0
  if key1 = "" then
    Except.error
      ("Freesound API authentication failed. Provide API key via constructor or FREESOUND_API_KEY environment variable.")
  else
    Except.ok ⟨key1⟩

/-- The request issued by `Downloader::downloadSound`: a GET on
`BASE_URL + "sounds/" + std::to_string(sound_id) + "/download/"` with the
token as the single query parameter. -/
def downloadRequest (api_key : String) (sound_id : Int) : HttpRequest :=
  { url := BASE_URL ++ "sounds/" ++ toString sound_id ++ "/download/"
    params := [("token", api_key)]
    header := []
    timeout := none }

/-- What `downloadSound` does with the outcome of its `cpr::Get` call:
a transport exception propagates (no try/catch in this method); a non-200
status returns `false` with the filesystem untouched; on 200 the
destination is opened for binary writing — if the open fails the method
returns `false`, otherwise the whole body is written and `true` returned. -/
def handleDownloadResponse (fs : FileSystem) (output_path : String)
    (res : Except String HttpResponse) : Except String (Bool × FileSystem) :=
  match res with
  | Except.error e => Except.error e
  | Except.ok response =>
    if response.status_code ≠ 200 then
      Except.ok (false, fs)
    else if fs.writable output_path then
      Except.ok (true, fs.writeFile output_path response.text)
    else
      Except.ok (false, fs)

/-- `Downloader::downloadSound(int, const std::string&)`. -/
def Downloader.downloadSound (d : Downloader) (sound_id : Int)
    (output_path : String) (world : World) (fs : FileSystem) :
    Downloader × Except String (Bool × FileSystem) :=
  (d, handleDownloadResponse fs output_path
        (world (downloadRequest d.m_api_key sound_id)))

/-- The request issued by the simple overload of
`Downloader::searchSounds`: a GET on `BASE_URL + "search/text/"` with
query, token, page and page_size parameters. -/
def simpleSearchRequest (api_key : String) (query : String) (page : Int)
    (page_size : Int) : HttpRequest :=
  { url := BASE_URL ++ "search/text/"
    params :=
      [("query", query), ("token", api_key), ("page", toString page),
       ("page_size", toString page_size)]
    header := []
    timeout := none }

/-- The simple overload `Downloader::searchSounds(query, page, page_size)`.
A transport exception propagates; a non-200 status yields `none`; a 200
status yields the raw response body. -/
def Downloader.searchSounds (d : Downloader) (query : String) (page : Int)
    (page_size : Int) (world : World) :
    Downloader × Except String (Option String) :=
  (d, match world (simpleSearchRequest d.m_api_key query page page_size) with
      | Except.error e => Except.error e
      | Except.ok response =>
        if response.status_code ≠ 200 then Except.ok none
        else Except.ok (some response.text))

/-- The parameter set built by the advanced overload of
`Downloader::searchSounds`, in construction order: the four always-present
parameters, then `filter` and `sort` when supplied, then the
`group_by_pack` flag serialised as "1"/"0", then `weights` when
supplied. -/
def advancedSearchParams (query : String) (filter : Option String)
    (sort : Option String) (page : Int) (page_size : Int)
    (group_by_pack : Bool) (weights : Option String) :
    List (String × String) :=
  [("query", query), ("page", toString page),
   ("page_size", toString page_size),
   ("fields", "id,name,username,description,tags,preview-hq-mp3,duration")]
  ++ (match filter with
      | some f => [("filter", f)]
      | none => [])
  ++ (match sort with
      | some s => [("sort", s)]
      | none => [])
  ++ [("group_by_pack", if group_by_pack then "1" else "0")]
  ++ (match weights with
      | some w => [("weights", w)]
      | none => [])

/-- The request issued by the advanced overload: the parameter set above,
a token `Authorization` header, a JSON content type and a 10-second
timeout. -/
def advancedSearchRequest (api_key : String) (query : String)
    (filter : Option String) (sort : Option String) (page : Int)
    (page_size : Int) (group_by_pack : Bool) (weights : Option String) :
    HttpRequest :=
  { url := BASE_URL ++ "search/text/"
    params := advancedSearchParams query filter sort page page_size
        group_by_pack weights
    header :=
      [("Authorization", "Token " ++ api_key),
       ("Content-Type", "application/json")]
    timeout := some 10000 }

/-- The advanced overload of `Downloader::searchSounds`.  The whole
`cpr::Get` call sits inside a try/catch, so a transport exception is
caught and yields `none`; a 200 status yields the raw body; any other
status yields `none`. -/
def Downloader.searchSoundsAdvanced (d : Downloader) (query : String)
    (filter : Option String) (sort : Option String) (page : Int)
    (page_size : Int) (group_by_pack : Bool) (weights : Option String)
    (world : World) : Downloader × Option String :=
  (d, match world (advancedSearchRequest d.m_api_key query filter sort page
        page_size group_by_pack weights) with
      | Except.error _ => none
      | Except.ok response =>
        if response.status_code = 200 then some response.text else none)

/-- C1: the advanced search never propagates an exception to its caller:
on an HTTP 200 response it returns the raw response body as a present
result, on any other HTTP status it returns an absent result, and on any
transport-level exception raised during the request it catches the
exception and returns an absent result. -/
theorem advancedSearch_never_throws (d : Downloader) (query : String)
    (filter : Option String) (sort : Option String) (page : Int)
    (page_size : Int) (group_by_pack : Bool) (weights : Option String)
    (world : World) :
    (∀ e, world (advancedSearchRequest d.m_api_key query filter sort page
        page_size group_by_pack weights) = Except.error e →
      (d.searchSoundsAdvanced query filter sort page page_size group_by_pack
        weights world).2 = none) ∧
    (∀ r, world (advancedSearchRequest d.m_api_key query filter sort page
        page_size group_by_pack weights) = Except.ok r →
      r.status_code = 200 →
      (d.searchSoundsAdvanced query filter sort page page_size group_by_pack
        weights world).2 = some r.text) ∧
    (∀ r, world (advancedSearchRequest d.m_api_key query filter sort page
        page_size group_by_pack weights) = Except.ok r →
      r.status_code ≠ 200 →
      (d.searchSoundsAdvanced query filter sort page page_size group_by_pack
        weights world).2 = none) := by
  refine ⟨fun e he => ?_, fun r hr h200 => ?_, fun r hr h200 => ?_⟩
  · simp [Downloader.searchSoundsAdvanced, he]
  · simp [Downloader.searchSoundsAdvanced, hr, h200]
  · simp [Downloader.searchSoundsAdvanced, hr, h200]

/-- Witness for C1 at a concrete transport exception. -/
theorem advancedSearch_never_throws_witness :
    ((Downloader.mk ("key")).searchSoundsAdvanced ("piano") none none 1 15
      false none (fun _ => Except.error ("connection refused"))).2 = none :=
  (advancedSearch_never_throws ⟨"key"⟩ ("piano") none none 1 15 false none
    (fun _ => Except.error ("connection refused"))).1
    ("connection refused") rfl

/-- C2: on an HTTP 200 download response with body `body` and a writable
destination path, `downloadSound` writes a file at the path whose
contents equal `body` exactly and returns `true`. -/
theorem downloadSound_success_writes_body (d : Downloader) (sound_id : Int)
    (output_path : String) (world : World) (fs : FileSystem) (body : String)
    (hresp : world (downloadRequest d.m_api_key sound_id) =
      Except.ok ⟨200, body⟩)
    (hw : fs.writable output_path = true) :
    (d.downloadSound sound_id output_path world fs).2 =
      Except.ok (true, fs.writeFile output_path body) ∧
    (fs.writeFile output_path body).files output_path = some body := by
  constructor
  · simp [Downloader.downloadSound, handleDownloadResponse, hresp, hw]
  · simp [FileSystem.writeFile]

/-- Witness for C2 at a concrete response, path and filesystem. -/
theorem downloadSound_success_writes_body_witness :
    ((Downloader.mk ("key")).downloadSound 123 ("/tmp/out.wav")
      (fun _ => Except.ok ⟨200, "BYTES"⟩)
      ⟨fun _ => none, fun _ => true⟩).2 =
      Except.ok (true,
        FileSystem.writeFile ⟨fun _ => none, fun _ => true⟩ ("/tmp/out.wav")
          ("BYTES")) ∧
    (FileSystem.writeFile ⟨fun _ => none, fun _ => true⟩ ("/tmp/out.wav")
      ("BYTES")).files ("/tmp/out.wav") = some ("BYTES") :=
  downloadSound_success_writes_body ⟨"key"⟩ 123 ("/tmp/out.wav")
    (fun _ => Except.ok ⟨200, "BYTES"⟩) ⟨fun _ => none, fun _ => true⟩
    ("BYTES") rfl rfl

/-- C3: on a non-200 download response, `downloadSound` returns `false`
and leaves the filesystem exactly as it was (no file created, no file
modified). -/
theorem downloadSound_non200_leaves_fs (d : Downloader) (sound_id : Int)
    (output_path : String) (world : World) (fs : FileSystem)
    (r : HttpResponse)
    (hresp : world (downloadRequest d.m_api_key sound_id) = Except.ok r)
    (hstatus : r.status_code ≠ 200) :
    (d.downloadSound sound_id output_path world fs).2 =
      Except.ok (false, fs) := by
  simp [Downloader.downloadSound, handleDownloadResponse, hresp, hstatus]

/-- Witness for C3 at a concrete 404 response. -/
theorem downloadSound_non200_leaves_fs_witness :
    ((Downloader.mk ("key")).downloadSound 123 ("/tmp/out.wav")
      (fun _ => Except.ok ⟨404, "not found"⟩)
      ⟨fun _ => none, fun _ => true⟩).2 =
      Except.ok (false, (⟨fun _ => none, fun _ => true⟩ : FileSystem)) :=
  downloadSound_non200_leaves_fs ⟨"key"⟩ 123 ("/tmp/out.wav")
    (fun _ => Except.ok ⟨404, "not found"⟩) ⟨fun _ => none, fun _ => true⟩
    ⟨404, "not found"⟩ rfl (by decide)

/-- C4: the advanced-search parameter set always contains query, page,
page size, the fixed field-selection list and the group-by-pack flag
serialised as "1"/"0"; each optional parameter (filter, sort, weights)
appears with its exact supplied value when supplied and is entirely
absent when omitted. -/
theorem advancedSearchParams_shape (query : String) (filter : Option String)
    (sort : Option String) (page : Int) (page_size : Int)
    (group_by_pack : Bool) (weights : Option String) :
    ("query", query) ∈ advancedSearchParams query filter sort page page_size
        group_by_pack weights ∧
    ("page", toString page) ∈ advancedSearchParams query filter sort page
        page_size group_by_pack weights ∧
    ("page_size", toString page_size) ∈ advancedSearchParams query filter
        sort page page_size group_by_pack weights ∧
    ("fields", "id,name,username,description,tags,preview-hq-mp3,duration")
        ∈ advancedSearchParams query filter sort page page_size
        group_by_pack weights ∧
    ("group_by_pack", if group_by_pack then "1" else "0")
        ∈ advancedSearchParams query filter sort page page_size
        group_by_pack weights ∧
    (∀ f, filter = some f → ("filter", f) ∈ advancedSearchParams query
        filter sort page page_size group_by_pack weights) ∧
    (filter = none → ∀ v, ("filter", v) ∉ advancedSearchParams query filter
        sort page page_size group_by_pack weights) ∧
    (∀ s, sort = some s → ("sort", s) ∈ advancedSearchParams query filter
        sort page page_size group_by_pack weights) ∧
    (sort = none → ∀ v, ("sort", v) ∉ advancedSearchParams query filter
        sort page page_size group_by_pack weights) ∧
    (∀ w, weights = some w → ("weights", w) ∈ advancedSearchParams query
        filter sort page page_size group_by_pack weights) ∧
    (weights = none → ∀ v, ("weights", v) ∉ advancedSearchParams query
        filter sort page page_size group_by_pack weights) := by
  cases filter <;> cases sort <;> cases weights <;>
    simp [advancedSearchParams]

/-- Witness for C4: supplied filter and sort appear exactly, omitted
weights is absent. -/
theorem advancedSearchParams_shape_witness :
    ("filter", "duration:[0 TO 30]") ∈ advancedSearchParams ("piano")
        (some ("duration:[0 TO 30]")) (some ("score")) 1 15 false none ∧
    (∀ v, ("weights", v) ∉ advancedSearchParams ("piano")
        (some ("duration:[0 TO 30]")) (some ("score")) 1 15 false none) :=
  ⟨(advancedSearchParams_shape ("piano") (some ("duration:[0 TO 30]"))
      (some ("score")) 1 15 false none).2.2.2.2.2.1
      ("duration:[0 TO 30]") rfl,
   (advancedSearchParams_shape ("piano") (some ("duration:[0 TO 30]"))
      (some ("score")) 1 15 false none).2.2.2.2.2.2.2.2.2.2 rfl⟩

/-- C5: the simple search returns, on an HTTP 200 response, a present
result whose text is exactly the response body, and on any non-200
status an absent result. -/
theorem simpleSearch_result (d : Downloader) (query : String) (page : Int)
    (page_size : Int) (world : World) (hq : query ≠ "") :
    (∀ r, world (simpleSearchRequest d.m_api_key query page page_size) =
        Except.ok r → r.status_code = 200 →
      (d.searchSounds query page page_size world).2 =
        Except.ok (some r.text)) ∧
    (∀ r, world (simpleSearchRequest d.m_api_key query page page_size) =
        Except.ok r → r.status_code ≠ 200 →
      (d.searchSounds query page page_size world).2 = Except.ok none) := by
  refine ⟨fun r hr h200 => ?_, fun r hr h200 => ?_⟩
  · simp [Downloader.searchSounds, hr, h200]
  · simp [Downloader.searchSounds, hr, h200]

/-- Witness for C5 at a concrete 200 response. -/
theorem simpleSearch_result_witness :
    ((Downloader.mk ("key")).searchSounds ("piano") 1 15
      (fun _ => Except.ok ⟨200, "results"⟩)).2 =
      Except.ok (some ("results")) :=
  (simpleSearch_result ⟨"key"⟩ ("piano") 1 15
      (fun _ => Except.ok ⟨200, "results"⟩) (by decide)).1
    ⟨200, "results"⟩ rfl rfl

/-- C6: construction resolves the token in order — a non-empty explicit
token is used; otherwise the environment value is used when non-empty;
and construction fails with the authentication-configuration error if
and only if neither source yields a non-empty token. -/
theorem construct_token_resolution (api_key : String)
    (env_key : Option String) :
    (api_key ≠ "" →
      Downloader.construct api_key env_key = Except.ok ⟨api_key⟩) ∧
    (api_key = "" → ∀ e, env_key = some e → e ≠ "" →
      Downloader.construct api_key env_key = Except.ok ⟨e⟩) ∧
    ((∃ msg, Downloader.construct api_key env_key = Except.error msg) ↔
      api_key = "" ∧ (env_key = none ∨ env_key = some "")) := by
  refine ⟨fun h => ?_, fun h e he hne => ?_, ?_⟩
  · simp [Downloader.construct, h]
  · simp [Downloader.construct, h, he, hne]
  · constructor
    · rintro ⟨msg, hmsg⟩
      by_cases hak : api_key = ""
      · subst hak
        cases env_key with
        | none => exact ⟨rfl, Or.inl rfl⟩
        | some e =>
          refine ⟨rfl, Or.inr ?_⟩
          by_cases he : e = ""
          · simp [he]
          · simp [Downloader.construct, he] at hmsg
      · simp [Downloader.construct, hak] at hmsg
    · rintro ⟨hak, henv⟩
      subst hak
      cases henv with
      | inl h => subst h; exact ⟨_, rfl⟩
      | inr h => subst h; exact ⟨_, rfl⟩

/-- Witness for C6: empty explicit token with unset environment fails;
empty explicit token with a non-empty environment value succeeds with
that value; a non-empty explicit token is used as given. -/
theorem construct_token_resolution_witness :
    Downloader.construct ("tok") none = Except.ok ⟨"tok"⟩ ∧
    Downloader.construct ("") (some ("envtok")) = Except.ok ⟨"envtok"⟩ ∧
    (("" : String) = "" ∧ ((none : Option String) = none ∨
      (none : Option String) = some "")) :=
  ⟨(construct_token_resolution ("tok") none).1 (by decide),
   (construct_token_resolution ("") (some ("envtok"))).2.1 rfl ("envtok")
     rfl (by decide),
   (construct_token_resolution ("") none).2.2.mp ⟨_, rfl⟩⟩

/-- C7: with a non-empty explicit token, construction always succeeds and
stores that token, and the outcome is identical for any two states of the
environment variable. -/
theorem construct_env_independent (api_key : String) (h : api_key ≠ "")
    (env1 env2 : Option String) :
    Downloader.construct api_key env1 = Except.ok ⟨api_key⟩ ∧
    Downloader.construct api_key env1 = Downloader.construct api_key env2 := by
  constructor
  · simp [Downloader.construct, h]
  · simp [Downloader.construct, h]

/-- Witness for C7 at a concrete token and two different environment
states. -/
theorem construct_env_independent_witness :
    Downloader.construct ("tok") none = Except.ok ⟨"tok"⟩ ∧
    Downloader.construct ("tok") none =
      Downloader.construct ("tok") (some ("other")) :=
  construct_env_independent ("tok") (by decide) none (some ("other"))

/-- C8: on an HTTP 200 download response whose destination cannot be
opened for writing, `downloadSound` returns `false` with the filesystem
untouched — and the caller-visible result is identical to that of a
remote rejection (any non-200 response), so the two failure causes are
indistinguishable. -/
theorem downloadSound_open_failure (d : Downloader) (sound_id : Int)
    (output_path : String) (world : World) (fs : FileSystem) (body : String)
    (hresp : world (downloadRequest d.m_api_key sound_id) =
      Except.ok ⟨200, body⟩)
    (hw : fs.writable output_path = false) :
    (d.downloadSound sound_id output_path world fs).2 =
      Except.ok (false, fs) ∧
    (∀ world2 r, world2 (downloadRequest d.m_api_key sound_id) =
        Except.ok r → r.status_code ≠ 200 →
      (d.downloadSound sound_id output_path world fs).2 =
        (d.downloadSound sound_id output_path world2 fs).2) := by
  constructor
  · simp [Downloader.downloadSound, handleDownloadResponse, hresp, hw]
  · intro world2 r hr2 h200
    simp [Downloader.downloadSound, handleDownloadResponse, hresp, hw, hr2,
      h200]

/-- Witness for C8 at a concrete unwritable path and a concrete 403
remote rejection. -/
theorem downloadSound_open_failure_witness :
    ((Downloader.mk ("key")).downloadSound 123 ("/bad/path.wav")
      (fun _ => Except.ok ⟨200, "BYTES"⟩)
      ⟨fun _ => none, fun _ => false⟩).2 =
      Except.ok (false, (⟨fun _ => none, fun _ => false⟩ : FileSystem)) ∧
    ((Downloader.mk ("key")).downloadSound 123 ("/bad/path.wav")
      (fun _ => Except.ok ⟨200, "BYTES"⟩)
      ⟨fun _ => none, fun _ => false⟩).2 =
      ((Downloader.mk ("key")).downloadSound 123 ("/bad/path.wav")
        (fun _ => Except.ok ⟨403, "denied"⟩)
        ⟨fun _ => none, fun _ => false⟩).2 :=
  ⟨(downloadSound_open_failure ⟨"key"⟩ 123 ("/bad/path.wav")
      (fun _ => Except.ok ⟨200, "BYTES"⟩) ⟨fun _ => none, fun _ => false⟩
      ("BYTES") rfl rfl).1,
   (downloadSound_open_failure ⟨"key"⟩ 123 ("/bad/path.wav")
      (fun _ => Except.ok ⟨200, "BYTES"⟩) ⟨fun _ => none, fun _ => false⟩
      ("BYTES") rfl rfl).2
      (fun _ => Except.ok ⟨403, "denied"⟩) ⟨403, "denied"⟩ rfl (by decide)⟩

/-- C9: every successfully constructed client has a non-empty stored
token, and every operation (downloadSound, simple search, advanced
search) leaves the client state — hence the token — unchanged. -/
theorem token_invariant (api_key : String) (env_key : Option String)
    (d : Downloader)
    (hc : Downloader.construct api_key env_key = Except.ok d) :
    d.m_api_key ≠ "" ∧
    (∀ sound_id output_path world fs,
      (d.downloadSound sound_id output_path world fs).1 = d) ∧
    (∀ query page page_size world,
      (d.searchSounds query page page_size world).1 = d) ∧
    (∀ query filter sort page page_size group_by_pack weights world,
      (d.searchSoundsAdvanced query filter sort page page_size
        group_by_pack weights world).1 = d) := by
  refine ⟨?_, fun _ _ _ _ => rfl, fun _ _ _ _ => rfl,
    fun _ _ _ _ _ _ _ _ => rfl⟩
  unfold Downloader.construct at hc
  by_cases hak : api_key = ""
  · cases env_key with
    | none => simp [hak] at hc
    | some e =>
      by_cases he : e = ""
      · simp [hak, he] at hc
      · simp [hak, he] at hc
        subst hc
        exact he
  · simp [hak] at hc
    subst hc
    exact hak

/-- Witness for C9 at a concretely constructed client. -/
theorem token_invariant_witness :
    ("tok" : String) ≠ "" ∧
    (∀ sound_id output_path world fs,
      ((Downloader.mk ("tok")).downloadSound sound_id output_path world
        fs).1 = Downloader.mk ("tok")) ∧
    (∀ query page page_size world,
      ((Downloader.mk ("tok")).searchSounds query page page_size world).1 =
        Downloader.mk ("tok")) ∧
    (∀ query filter sort page page_size group_by_pack weights world,
      ((Downloader.mk ("tok")).searchSoundsAdvanced query filter sort page
        page_size group_by_pack weights world).1 = Downloader.mk ("tok")) :=
  token_invariant ("tok") none ⟨"tok"⟩ rfl

/-- C10: `downloadSound` performs no local validation of the sound
identifier: for every integer sound_id (zero and negatives included) it
issues the request to the per-sound download URL built from the decimal
rendering of sound_id, and its whole result is exactly the handling of
the response received there (status check then file write) — no other
failure path exists. -/
theorem downloadSound_no_id_validation (d : Downloader) (sound_id : Int)
    (output_path : String) (world : World) (fs : FileSystem) :
    (downloadRequest d.m_api_key sound_id).url =
      BASE_URL ++ "sounds/" ++ toString sound_id ++ "/download/" ∧
    d.downloadSound sound_id output_path world fs =
      (d, handleDownloadResponse fs output_path
        (world (downloadRequest d.m_api_key sound_id))) ∧
    (downloadRequest d.m_api_key 0).url =
      "https://freesound.org/apiv2/sounds/0/download/" ∧
    (downloadRequest d.m_api_key (-7)).url =
      "https://freesound.org/apiv2/sounds/-7/download/" :=
  ⟨rfl, rfl, rfl, rfl⟩

end FreesoundDownloader
